import Mathlib

/-!
Verification of `docker/graphiti-patch.py` (a patched `zep_graphiti.py`).

The module wraps the third-party `graphiti_core` library: it builds one
configured client from environment-derived settings, caches it in a
process-wide singleton slot, and exposes thin delegate methods that call
into the library and translate its not-found errors to HTTP 404 failures.

The wrapped library itself is not part of the repository, so its calls are
modelled as explicit oracles (`LibApi`) and the default configuration its
constructor installs as explicit parameters (`LibDefaults`).
-/

/-- Environment-derived settings, as consumed by the module
(`settings.neo4j_uri`, `settings.openai_base_url`, ... in
`_create_configured_client`).  Optional fields are `None`-able in Python. -/
structure Settings where
  neo4j_uri : String
  neo4j_user : String
  neo4j_password : String
  openai_base_url : Option String
  openai_api_key : Option String
  model_name : Option String
  embedding_model_name : Option String
deriving DecidableEq, Repr

/-- The mutable configuration of the LLM client
(`client.llm_client.config`). -/
structure LLMConfig where
  base_url : Option String
  api_key : Option String
  small_model : Option String
deriving DecidableEq, Repr

/-- The LLM client state touched by the module (`client.llm_client`). -/
structure LLMClientState where
  config : LLMConfig
  model : Option String
deriving DecidableEq, Repr

/-- `OpenAIEmbedderConfig(api_key=..., base_url=..., embedding_model=...)`. -/
structure OpenAIEmbedderConfig where
  api_key : Option String
  base_url : Option String
  embedding_model : String
deriving DecidableEq, Repr

/-- `OpenAIEmbedder(config=...)`. -/
structure OpenAIEmbedder where
  config : OpenAIEmbedderConfig
deriving DecidableEq, Repr

/-- The client object: the fields of a `ZepGraphiti` instance the module
reads or writes.  `clients_embedder` stands for `client.clients.embedder`. -/
structure ZepGraphiti where
  uri : String
  user : String
  password : String
  llm_client : LLMClientState
  embedder : OpenAIEmbedder
  clients_embedder : OpenAIEmbedder
deriving DecidableEq, Repr

/-- Modelled from the spec: the wrapped library's `Graphiti.__init__` (not in
this repository) installs a default LLM client and a default embedder (the
spec and a source comment note the embedder defaults to
`text-embedding-3-small`).  These library-chosen defaults are passed as
explicit parameters. -/
structure LibDefaults where
  llm_client : LLMClientState
  embedder : OpenAIEmbedder
deriving DecidableEq, Repr

/-- `ZepGraphiti.__init__`: delegates to the library constructor, which
stores the connection data and installs the default LLM client and embedder
(both on `client.embedder` and `client.clients.embedder`). -/
def ZepGraphiti.init (d : LibDefaults) (uri user password : String) : ZepGraphiti :=
  { uri := uri, user := user, password := password,
    llm_client := d.llm_client,
    embedder := d.embedder,
    clients_embedder := d.embedder }

/-- Python `x or dflt` on an optional string: falsy (`None` or empty)
falls back to the default. -/
def pyStrOr (o : Option String) (dflt : String) : String :=
  match o with
  | some s => if s = "" then dflt else s
  | none => dflt

/-- `_create_configured_client(settings)`: builds a `ZepGraphiti` and
overrides LLM and embedder configuration from the settings, field by field,
exactly as the source does. -/
def _create_configured_client (d : LibDefaults) (settings : Settings) : ZepGraphiti :=
  let client := ZepGraphiti.init d settings.neo4j_uri settings.neo4j_user settings.neo4j_password
  let client :=
    match settings.openai_base_url with
    | some u =>
        { client with llm_client :=
            { client.llm_client with config :=
                { client.llm_client.config with base_url := some u } } }
    | none => client
  let client :=
    match settings.openai_api_key with
    | some k =>
        { client with llm_client :=
            { client.llm_client with config :=
                { client.llm_client.config with api_key := some k } } }
    | none => client
  let client :=
    match settings.model_name with
    | some m =>
        { client with llm_client :=
            { client.llm_client with
                model := some m,
                config := { client.llm_client.config with small_model := some m } } }
    | none => client
  match settings.embedding_model_name with
  | some em =>
      let embedder_config : OpenAIEmbedderConfig :=
        { api_key := some (pyStrOr settings.openai_api_key "ollama"),
          base_url := settings.openai_base_url,
          embedding_model := em }
      let embedder : OpenAIEmbedder := { config := embedder_config }
      { client with embedder := embedder, clients_embedder := embedder }
  | none => client

/-- The per-process state the module mutates: the global `_shared_client`
slot, plus an instrumentation counter for how many times `get_settings()`
has been invoked (the module's only settings read). -/
structure ProcState where
  shared_client : Option ZepGraphiti
  settings_reads : Nat
deriving DecidableEq, Repr

/-- At process start the slot is empty and settings were never read. -/
def initialState : ProcState :=
  { shared_client := none, settings_reads := 0 }

/-- `get_settings()`: reads the environment-derived settings.  The process
environment is modelled as the fixed parameter `env`. -/
def get_settings (env : Settings) : Settings := env

/-- `_get_shared_client()`: returns the cached client, creating it (and
reading settings, counted by `settings_reads`) only when the slot is empty. -/
def _get_shared_client (d : LibDefaults) (env : Settings) (st : ProcState) :
    ProcState × ZepGraphiti :=
  match st.shared_client with
  | some c => (st, c)
  | none =>
      let settings := get_settings env
      let c := _create_configured_client d settings
      ({ shared_client := some c, settings_reads := st.settings_reads + 1 }, c)

/-- `n` successive calls of `_get_shared_client`, threading the process
state (the yielded clients are discarded). -/
def callSharedN (d : LibDefaults) (env : Settings) : Nat → ProcState → ProcState
  | 0, st => st
  | n + 1, st => callSharedN d env n (_get_shared_client d env st).1

set_option linter.unusedVariables false in
/-- `get_graphiti(settings)`: the FastAPI dependency.  Its `settings`
parameter is bound by the signature but unused; it yields the shared
singleton. -/
def get_graphiti (settings : Settings) (d : LibDefaults) (env : Settings)
    (st : ProcState) : ProcState × ZepGraphiti :=
  _get_shared_client d env st

/-- An entity edge, with the fields the module reads. -/
structure EntityEdge where
  uuid : String
  name : String
  fact : String
deriving DecidableEq, Repr

/-- An entity node, with the fields `save_entity_node` sets. -/
structure EntityNode where
  name : String
  uuid : String
  group_id : String
  summary : String
  name_embedding : Option (List Int)
deriving DecidableEq, Repr

/-- An episodic node. -/
structure EpisodicNode where
  uuid : String
  group_id : String
deriving DecidableEq, Repr

/-- The wrapped library's error classes caught or propagated by the module
(`graphiti_core.errors`), each carrying its `.message`; `otherError` stands
for any other library exception. -/
inductive LibErr where
  | edgeNotFoundError (message : String)
  | nodeNotFoundError (message : String)
  | groupsEdgesNotFoundError (message : String)
  | otherError (message : String)
deriving DecidableEq, Repr

/-- How a delegate method fails: either the `HTTPException(status_code,
detail)` it raises itself, or a library error it lets propagate unchanged. -/
inductive Failure where
  | httpException (status_code : Nat) (detail : String)
  | libError (e : LibErr)
deriving DecidableEq, Repr

/-- Modelled from the spec: the wrapped library's persistence calls (not in
this repository) are oracles from arguments to a result or a raised
`LibErr`.  Each field is one library call the module makes on `self.driver`
or `self.embedder`. -/
structure LibApi where
  edge_get_by_uuid : String → Except LibErr EntityEdge
  edge_get_by_group_ids : List String → Except LibErr (List EntityEdge)
  node_get_by_group_ids : List String → Except LibErr (List EntityNode)
  episode_get_by_group_ids : List String → Except LibErr (List EpisodicNode)
  episode_get_by_uuid : String → Except LibErr EpisodicNode
  generate_name_embedding : EntityNode → Except LibErr EntityNode
  node_save : EntityNode → Except LibErr Unit
  edge_delete : EntityEdge → Except LibErr Unit
  node_delete : EntityNode → Except LibErr Unit
  episode_delete : EpisodicNode → Except LibErr Unit

/-- `save_entity_node`: builds the node, generates its name embedding and
saves it; no exception handling, so library errors propagate unchanged. -/
def save_entity_node (lib : LibApi) (name uuid group_id summary : String) :
    Except Failure EntityNode :=
  let new_node : EntityNode :=
    { name := name, uuid := uuid, group_id := group_id, summary := summary,
      name_embedding := none }
  match lib.generate_name_embedding new_node with
  | .error e => .error (.libError e)
  | .ok embedded =>
      match lib.node_save embedded with
      | .error e => .error (.libError e)
      | .ok _ => .ok embedded

/-- `get_entity_edge(uuid)`: fetch by uuid, translating `EdgeNotFoundError`
to a 404 with the library message; other errors propagate. -/
def get_entity_edge (lib : LibApi) (uuid : String) : Except Failure EntityEdge :=
  match lib.edge_get_by_uuid uuid with
  | .ok edge => .ok edge
  | .error (.edgeNotFoundError m) => .error (.httpException 404 m)
  | .error e => .error (.libError e)

/-- `delete_entity_edge(uuid)`: fetch then delete, with `EdgeNotFoundError`
from either call translated to a 404. -/
def delete_entity_edge (lib : LibApi) (uuid : String) : Except Failure Unit :=
  match lib.edge_get_by_uuid uuid with
  | .error (.edgeNotFoundError m) => .error (.httpException 404 m)
  | .error e => .error (.libError e)
  | .ok edge =>
      match lib.edge_delete edge with
      | .ok _ => .ok ()
      | .error (.edgeNotFoundError m) => .error (.httpException 404 m)
      | .error e => .error (.libError e)

/-- `delete_episodic_node(uuid)`: fetch then delete, with
`NodeNotFoundError` from either call translated to a 404. -/
def delete_episodic_node (lib : LibApi) (uuid : String) : Except Failure Unit :=
  match lib.episode_get_by_uuid uuid with
  | .error (.nodeNotFoundError m) => .error (.httpException 404 m)
  | .error e => .error (.libError e)
  | .ok episode =>
      match lib.episode_delete episode with
      | .ok _ => .ok ()
      | .error (.nodeNotFoundError m) => .error (.httpException 404 m)
      | .error e => .error (.libError e)

/-- Observable steps of `delete_group`, in the order the source performs
them: the three fetches, the warning log for the swallowed
no-edges-found error, and the per-item delete calls. -/
inductive GraphOp where
  | fetchEdges (group_id : String)
  | warnNoEdges (group_id : String)
  | fetchNodes (group_id : String)
  | fetchEpisodes (group_id : String)
  | deleteEdge (e : EntityEdge)
  | deleteNode (n : EntityNode)
  | deleteEpisode (p : EpisodicNode)
deriving DecidableEq, Repr

/-- One `for x in xs: await x.delete(...)` loop: records each attempted
delete and stops at the first library error, which propagates. -/
def runDeleteLoop {α : Type} (del : α → Except LibErr Unit) (mk : α → GraphOp) :
    List α → List GraphOp × Option LibErr
  | [] => ([], none)
  | x :: xs =>
      match del x with
      | .ok _ =>
          let r := runDeleteLoop del mk xs
          (mk x :: r.1, r.2)
      | .error e => ([mk x], some e)

/-- The part of `delete_group` after the edge fetch: fetch nodes and
episodes (errors propagate uncaught), then run the three delete loops. -/
def delete_group_rest (lib : LibApi) (group_id : String)
    (edges : List EntityEdge) (pre : List GraphOp) : List GraphOp × Option Failure :=
  match lib.node_get_by_group_ids [group_id] with
  | .error e => (pre ++ [GraphOp.fetchNodes group_id], some (.libError e))
  | .ok nodes =>
      match lib.episode_get_by_group_ids [group_id] with
      | .error e =>
          (pre ++ [GraphOp.fetchNodes group_id, GraphOp.fetchEpisodes group_id],
           some (.libError e))
      | .ok episodes =>
          let pre2 := pre ++ [GraphOp.fetchNodes group_id, GraphOp.fetchEpisodes group_id]
          match runDeleteLoop lib.edge_delete GraphOp.deleteEdge edges with
          | (t1, some err) => (pre2 ++ t1, some (.libError err))
          | (t1, none) =>
              match runDeleteLoop lib.node_delete GraphOp.deleteNode nodes with
              | (t2, some err) => (pre2 ++ t1 ++ t2, some (.libError err))
              | (t2, none) =>
                  match runDeleteLoop lib.episode_delete GraphOp.deleteEpisode episodes with
                  | (t3, e3) => (pre2 ++ t1 ++ t2 ++ t3, e3.map .libError)

/-- `delete_group(group_id)`: fetch the group's edges, treating
`GroupsEdgesNotFoundError` as non-fatal (warn, continue with `[]`); then
fetch nodes and episodes and delete edges, nodes, episodes in that order.
Returns the trace of performed steps and the failure, if any. -/
def delete_group (lib : LibApi) (group_id : String) : List GraphOp × Option Failure :=
  match lib.edge_get_by_group_ids [group_id] with
  | .error (.groupsEdgesNotFoundError _) =>
      delete_group_rest lib group_id []
        [GraphOp.fetchEdges group_id, GraphOp.warnNoEdges group_id]
  | .error e => ([GraphOp.fetchEdges group_id], some (.libError e))
  | .ok edges => delete_group_rest lib group_id edges [GraphOp.fetchEdges group_id]

/-- A sample set of library constructor defaults (api key unset, the
documented default embedding model). -/
def defaults0 : LibDefaults :=
  { llm_client :=
      { config := { base_url := none, api_key := none, small_model := none },
        model := none },
    embedder :=
      { config := { api_key := none, base_url := none,
                    embedding_model := "text-embedding-3-small" } } }

/-- Sample settings with every optional field unset. -/
def settings0 : Settings :=
  { neo4j_uri := "bolt://neo4j:7687", neo4j_user := "neo4j",
    neo4j_password := "pw", openai_base_url := none, openai_api_key := none,
    model_name := none, embedding_model_name := none }

/-- Sample settings with every optional field configured. -/
def settingsFull : Settings :=
  { neo4j_uri := "bolt://neo4j:7687", neo4j_user := "neo4j",
    neo4j_password := "pw", openai_base_url := some "http://ollama:11434/v1",
    openai_api_key := some "sk-key", model_name := some "llama3",
    embedding_model_name := some "nomic-embed-text" }

/-- Sample settings with only the embedding model configured. -/
def settingsEmb : Settings :=
  { settings0 with embedding_model_name := some "nomic-embed-text" }

/-- Sample settings with everything but the embedding model configured. -/
def settingsNoEmb : Settings :=
  { settingsFull with embedding_model_name := none }

/-- A sample client, as created on first access. -/
def client0 : ZepGraphiti := _create_configured_client defaults0 settings0

/-- A process state whose singleton slot is already filled. -/
def stFilled : ProcState := { shared_client := some client0, settings_reads := 1 }

/-- Once a call of `callSharedN` has filled the slot, further calls leave
the process state unchanged. -/
theorem callSharedN_frozen (d : LibDefaults) (env : Settings) (n : Nat)
    (st : ProcState) (h : st.shared_client.isSome) :
    callSharedN d env n st = st := by
  induction n with
  | zero => rfl
  | succ n ih =>
      rcases Option.isSome_iff_exists.mp h with ⟨c, hc⟩
      simpa [callSharedN, _get_shared_client, hc] using ih

/-- Claim C1: once created, `_get_shared_client` stores the client it
returns in the singleton slot, a second call returns the identical client
and state, and a call on a state whose slot is already filled returns the
stored client without replacing anything. -/
theorem shared_client_identical (d : LibDefaults) (env : Settings)
    (st : ProcState) :
    (_get_shared_client d env st).1.shared_client =
      some (_get_shared_client d env st).2 ∧
    _get_shared_client d env (_get_shared_client d env st).1 =
      _get_shared_client d env st ∧
    (∀ c, st.shared_client = some c → _get_shared_client d env st = (st, c)) := by
  rcases hst : st.shared_client with _ | c
  · refine ⟨?_, ?_, ?_⟩
    · simp [_get_shared_client, hst]
    · simp [_get_shared_client, hst]
    · intro c hc
      simp [hst] at hc
  · refine ⟨?_, ?_, ?_⟩
    · simp [_get_shared_client, hst]
    · simp [_get_shared_client, hst]
    · intro c' hc'
      obtain rfl : c' = c := (Option.some.inj hc').symm
      simp [_get_shared_client, hst]

/-- Claim C1 witness: on a filled slot, the accessor returns the stored
client and leaves the state untouched. -/
theorem shared_client_identical_witness :
    _get_shared_client defaults0 settings0 stFilled = (stFilled, client0) :=
  (shared_client_identical defaults0 settings0 stFilled).2.2 client0 rfl

/-- Claim C5: `get_settings` is read exactly on the creating call — the
settings-read counter increments on a call with an empty slot, a call with
a filled slot leaves the state (hence the counter) unchanged, and from a
fresh process any positive number of calls reads settings exactly once. -/
theorem settings_read_at_most_once (d : LibDefaults) (env : Settings) :
    (∀ st : ProcState, st.shared_client = none →
        (_get_shared_client d env st).1.settings_reads = st.settings_reads + 1) ∧
    (∀ st : ProcState, st.shared_client.isSome →
        (_get_shared_client d env st).1 = st) ∧
    (∀ n : Nat, 1 ≤ n →
        (callSharedN d env n initialState).settings_reads = 1) := by
  refine ⟨?_, ?_, ?_⟩
  · intro st hst
    simp [_get_shared_client, hst]
  · intro st hst
    rcases Option.isSome_iff_exists.mp hst with ⟨c, hc⟩
    simp [_get_shared_client, hc]
  · intro n hn
    cases n with
    | zero => exact absurd hn (by decide)
    | succ m =>
        have h1 : (_get_shared_client d env initialState).1 =
            { shared_client := some (_create_configured_client d (get_settings env)),
              settings_reads := 1 } := by
          simp [_get_shared_client, initialState]
        have h2 : callSharedN d env (m + 1) initialState =
            callSharedN d env m (_get_shared_client d env initialState).1 := rfl
        rw [h2, h1, callSharedN_frozen d env m _ (by simp)]

/-- Claim C5 witness: concrete instances of the three conjuncts. -/
theorem settings_read_at_most_once_witness :
    (_get_shared_client defaults0 settings0 initialState).1.settings_reads =
      initialState.settings_reads + 1 ∧
    (_get_shared_client defaults0 settings0 stFilled).1 = stFilled ∧
    (callSharedN defaults0 settings0 3 initialState).settings_reads = 1 := by
  have h := settings_read_at_most_once defaults0 settings0
  exact ⟨h.1 initialState rfl, h.2.1 stFilled (by decide), h.2.2 3 (by decide)⟩

/-- Claim C9: `get_graphiti` ignores its `settings` argument — any two
settings values yield the same result, which is exactly the shared
singleton accessor's result on the process state. -/
theorem get_graphiti_ignores_settings (s1 s2 : Settings) (d : LibDefaults)
    (env : Settings) (st : ProcState) :
    get_graphiti s1 d env st = get_graphiti s2 d env st ∧
    get_graphiti s1 d env st = _get_shared_client d env st :=
  ⟨rfl, rfl⟩

/-- Claim C2 counterexample: with an embedding model configured but no
`openai_api_key`, the embedder's API key is `some "ollama"` while the chat
client keeps its default key — the two differ, so the embedder does not use
"the same base URL/key as the chat model client". -/
theorem embedder_matches_llm_counterexample :
    settingsEmb.embedding_model_name = some "nomic-embed-text" ∧
    (_create_configured_client defaults0 settingsEmb).embedder.config.api_key =
      some "ollama" ∧
    (_create_configured_client defaults0 settingsEmb).llm_client.config.api_key =
      none ∧
    (_create_configured_client defaults0 settingsEmb).embedder.config.api_key ≠
      (_create_configured_client defaults0 settingsEmb).llm_client.config.api_key := by
  refine ⟨rfl, rfl, rfl, ?_⟩
  decide

/-- Claim C2 (amended): whenever an embedding model name is configured the
embedder uses it, with base URL `settings.openai_base_url`, API key
`settings.openai_api_key or 'ollama'` (so falling back to `'ollama'` when
the key is unset or empty), and `clients.embedder` the same embedder; and
when the settings also configure a base URL and a non-empty API key, the
embedder's base URL and API key equal the chat client's. -/
theorem embedder_config_from_settings (d : LibDefaults) (s : Settings)
    (em : String) (h1 : s.embedding_model_name = some em) :
    ((_create_configured_client d s).embedder.config.embedding_model = em ∧
     (_create_configured_client d s).embedder.config.base_url = s.openai_base_url ∧
     (_create_configured_client d s).embedder.config.api_key =
       some (pyStrOr s.openai_api_key "ollama") ∧
     (_create_configured_client d s).clients_embedder =
       (_create_configured_client d s).embedder) ∧
    (∀ u k, s.openai_base_url = some u → s.openai_api_key = some k → k ≠ "" →
       (_create_configured_client d s).embedder.config.base_url =
         (_create_configured_client d s).llm_client.config.base_url ∧
       (_create_configured_client d s).embedder.config.api_key =
         (_create_configured_client d s).llm_client.config.api_key) := by
  constructor
  · cases hb : s.openai_base_url <;> cases hk : s.openai_api_key <;>
      cases hm : s.model_name <;>
        simp [_create_configured_client, ZepGraphiti.init, h1, hb, hk, hm]
  · intro u k h2 h3 h4
    cases hm : s.model_name <;>
      simp [_create_configured_client, ZepGraphiti.init, pyStrOr, h1, h2, h3, h4, hm]

/-- Claim C2 (amended) witness: fully configured settings for both parts,
plus the key-unset fallback at `settingsEmb`. -/
theorem embedder_config_from_settings_witness :
    ((_create_configured_client defaults0 settingsFull).embedder.config.embedding_model =
       "nomic-embed-text" ∧
     (_create_configured_client defaults0 settingsFull).embedder.config.base_url =
       settingsFull.openai_base_url ∧
     (_create_configured_client defaults0 settingsFull).embedder.config.api_key =
       some (pyStrOr settingsFull.openai_api_key "ollama") ∧
     (_create_configured_client defaults0 settingsFull).clients_embedder =
       (_create_configured_client defaults0 settingsFull).embedder) ∧
    ((_create_configured_client defaults0 settingsFull).embedder.config.base_url =
       (_create_configured_client defaults0 settingsFull).llm_client.config.base_url ∧
     (_create_configured_client defaults0 settingsFull).embedder.config.api_key =
       (_create_configured_client defaults0 settingsFull).llm_client.config.api_key) ∧
    (_create_configured_client defaults0 settingsEmb).embedder.config.api_key =
      some (pyStrOr settingsEmb.openai_api_key "ollama") := by
  have h := embedder_config_from_settings defaults0 settingsFull "nomic-embed-text" rfl
  have h2 := embedder_config_from_settings defaults0 settingsEmb "nomic-embed-text" rfl
  exact ⟨h.1, h.2 "http://ollama:11434/v1" "sk-key" rfl rfl (by decide), h2.1.2.2.1⟩

/-- Claim C10: when no embedding model name is configured, both embedder
fields keep the constructor-installed default, whatever the other settings
say. -/
theorem embedder_untouched_without_model_name (d : LibDefaults) (s : Settings)
    (h : s.embedding_model_name = none) :
    (_create_configured_client d s).embedder = d.embedder ∧
    (_create_configured_client d s).clients_embedder = d.embedder := by
  cases hb : s.openai_base_url <;> cases hk : s.openai_api_key <;>
    cases hm : s.model_name <;>
      simp [_create_configured_client, ZepGraphiti.init, h, hb, hk, hm]

/-- Claim C10 witness: base URL, API key and model name all configured, no
embedding model name — the embedder stays the library default. -/
theorem embedder_untouched_without_model_name_witness :
    (_create_configured_client defaults0 settingsNoEmb).embedder = defaults0.embedder ∧
    (_create_configured_client defaults0 settingsNoEmb).clients_embedder =
      defaults0.embedder :=
  embedder_untouched_without_model_name defaults0 settingsNoEmb rfl

/-- A sample entity edge. -/
def edge1 : EntityEdge := { uuid := "e1", name := "knows", fact := "a knows b" }

/-- A sample entity node. -/
def node1 : EntityNode :=
  { name := "alice", uuid := "n1", group_id := "g", summary := "",
    name_embedding := none }

/-- A sample episodic node. -/
def episode1 : EpisodicNode := { uuid := "p1", group_id := "g" }

/-- A library in which the by-uuid lookups raise their not-found errors
and every group fetch returns nothing. -/
def libMissing : LibApi :=
  { edge_get_by_uuid := fun _ => .error (.edgeNotFoundError "edge not found"),
    edge_get_by_group_ids := fun _ => .ok [],
    node_get_by_group_ids := fun _ => .ok [],
    episode_get_by_group_ids := fun _ => .ok [],
    episode_get_by_uuid := fun _ => .error (.nodeNotFoundError "node not found"),
    generate_name_embedding := fun n => .ok n,
    node_save := fun _ => .ok (),
    edge_delete := fun _ => .ok (),
    node_delete := fun _ => .ok (),
    episode_delete := fun _ => .ok () }

/-- A library whose edge group fetch raises the no-edges-found error while
the group still has a node and an episode. -/
def libNoEdges : LibApi :=
  { libMissing with
    edge_get_by_group_ids := fun _ => .error (.groupsEdgesNotFoundError "no edges found"),
    node_get_by_group_ids := fun _ => .ok [node1],
    episode_get_by_group_ids := fun _ => .ok [episode1] }

/-- A library in which every lookup succeeds. -/
def libAll : LibApi :=
  { libMissing with
    edge_get_by_uuid := fun _ => .ok edge1,
    episode_get_by_uuid := fun _ => .ok episode1,
    edge_get_by_group_ids := fun _ => .ok [edge1],
    node_get_by_group_ids := fun _ => .ok [node1],
    episode_get_by_group_ids := fun _ => .ok [episode1] }

/-- A library whose node group fetch raises a not-found error. -/
def libNodeFetchErr : LibApi :=
  { libMissing with
    node_get_by_group_ids := fun _ => .error (.nodeNotFoundError "group nodes not found") }

/-- A library combining the failing by-uuid lookups, the no-edges group
fetch, and a failing embedding call. -/
def libCombo : LibApi :=
  { libNoEdges with
    generate_name_embedding := fun _ => .error (.otherError "llm unavailable") }

/-- Claim C3: whenever the library raises `EdgeNotFoundError` on the edge
lookup, `get_entity_edge` and `delete_entity_edge` fail with a 404 whose
detail is exactly the library message; likewise `delete_episodic_node` for
`NodeNotFoundError` on the episode lookup. -/
theorem not_found_translated_to_404 (lib : LibApi) (uuid m : String) :
    (lib.edge_get_by_uuid uuid = .error (.edgeNotFoundError m) →
       get_entity_edge lib uuid = .error (.httpException 404 m) ∧
       delete_entity_edge lib uuid = .error (.httpException 404 m)) ∧
    (lib.episode_get_by_uuid uuid = .error (.nodeNotFoundError m) →
       delete_episodic_node lib uuid = .error (.httpException 404 m)) := by
  constructor
  · intro h
    constructor <;> simp [get_entity_edge, delete_entity_edge, h]
  · intro h
    simp [delete_episodic_node, h]

/-- Claim C3 witness: a library whose lookups raise the not-found errors. -/
theorem not_found_translated_to_404_witness :
    get_entity_edge libMissing "u1" = .error (.httpException 404 "edge not found") ∧
    delete_entity_edge libMissing "u1" = .error (.httpException 404 "edge not found") ∧
    delete_episodic_node libMissing "u1" = .error (.httpException 404 "node not found") := by
  have h1 := not_found_translated_to_404 libMissing "u1" "edge not found"
  have h2 := not_found_translated_to_404 libMissing "u1" "node not found"
  exact ⟨(h1.1 rfl).1, (h1.1 rfl).2, h2.2 rfl⟩

/-- A delete loop over items whose deletes all succeed performs exactly one
delete per item, in list order, with no error. -/
theorem runDeleteLoop_all_ok {α : Type} (del : α → Except LibErr Unit)
    (mk : α → GraphOp) (l : List α) (h : ∀ x ∈ l, del x = .ok ()) :
    runDeleteLoop del mk l = (l.map mk, none) := by
  induction l with
  | nil => rfl
  | cons x xs ih =>
      have hx : del x = .ok () := h x (List.mem_cons_self x xs)
      have ih' := ih fun y hy => h y (List.mem_cons_of_mem x hy)
      simp [runDeleteLoop, hx, ih']

/-- Every step a delete loop records is a delete of one of its items. -/
theorem runDeleteLoop_mem {α : Type} (del : α → Except LibErr Unit)
    (mk : α → GraphOp) (l : List α) :
    ∀ a ∈ (runDeleteLoop del mk l).1, ∃ x, a = mk x := by
  induction l with
  | nil =>
      intro a ha
      simp [runDeleteLoop] at ha
  | cons x xs ih =>
      intro a ha
      cases hx : del x with
      | ok v =>
          simp [runDeleteLoop, hx] at ha
          rcases ha with rfl | ha
          · exact ⟨x, rfl⟩
          · exact ih a ha
      | error e =>
          simp [runDeleteLoop, hx] at ha
          exact ⟨x, ha⟩

/-- Claim C4: when the edge fetch raises the library's no-edges-found
error, `delete_group` does not fail — it records the warning, continues
with an empty edge set, and still fetches and deletes the group's nodes and
episodes. -/
theorem delete_group_no_edges_ok (lib : LibApi) (gid m : String)
    (nodes : List EntityNode) (episodes : List EpisodicNode)
    (he : lib.edge_get_by_group_ids [gid] = .error (.groupsEdgesNotFoundError m))
    (hn : lib.node_get_by_group_ids [gid] = .ok nodes)
    (hp : lib.episode_get_by_group_ids [gid] = .ok episodes)
    (hdn : ∀ n ∈ nodes, lib.node_delete n = .ok ())
    (hdp : ∀ p ∈ episodes, lib.episode_delete p = .ok ()) :
    delete_group lib gid =
      ([GraphOp.fetchEdges gid, GraphOp.warnNoEdges gid, GraphOp.fetchNodes gid,
        GraphOp.fetchEpisodes gid] ++
        nodes.map GraphOp.deleteNode ++ episodes.map GraphOp.deleteEpisode,
       none) := by
  have h1 := runDeleteLoop_all_ok lib.node_delete GraphOp.deleteNode nodes hdn
  have h2 := runDeleteLoop_all_ok lib.episode_delete GraphOp.deleteEpisode episodes hdp
  simp [delete_group, delete_group_rest, he, hn, hp, h1, h2, runDeleteLoop]

/-- Claim C4 witness: a group with no edges but one node and one episode. -/
theorem delete_group_no_edges_ok_witness :
    delete_group libNoEdges "g" =
      ([GraphOp.fetchEdges "g", GraphOp.warnNoEdges "g", GraphOp.fetchNodes "g",
        GraphOp.fetchEpisodes "g"] ++
        [node1].map GraphOp.deleteNode ++ [episode1].map GraphOp.deleteEpisode,
       none) :=
  delete_group_no_edges_ok libNoEdges "g" "no edges found" [node1] [episode1]
    rfl rfl rfl (fun _ _ => rfl) (fun _ _ => rfl)

/-- The phase of a `delete_group` step: fetches and the warning (0), then
edge deletions (1), node deletions (2), episode deletions (3). -/
def opPhase : GraphOp → Nat
  | .fetchEdges _ => 0
  | .warnNoEdges _ => 0
  | .fetchNodes _ => 0
  | .fetchEpisodes _ => 0
  | .deleteEdge _ => 1
  | .deleteNode _ => 2
  | .deleteEpisode _ => 3

/-- A list of steps of one common phase is phase-ordered. -/
theorem pairwise_opPhase_of_const (l : List GraphOp) (k : Nat)
    (h : ∀ a ∈ l, opPhase a = k) :
    l.Pairwise (fun a b => opPhase a ≤ opPhase b) := by
  induction l with
  | nil => exact List.Pairwise.nil
  | cons x xs ih =>
      refine List.Pairwise.cons ?_ (ih fun y hy => h y (List.mem_cons_of_mem x hy))
      intro y hy
      rw [h x (List.mem_cons_self x xs), h y (List.mem_cons_of_mem x hy)]

/-- Four consecutive constant-phase blocks with increasing phases are
phase-ordered. -/
theorem pairwise_four_blocks (p0 t1 t2 t3 : List GraphOp)
    (h0 : ∀ a ∈ p0, opPhase a = 0) (h1 : ∀ a ∈ t1, opPhase a = 1)
    (h2 : ∀ a ∈ t2, opPhase a = 2) (h3 : ∀ a ∈ t3, opPhase a = 3) :
    (p0 ++ t1 ++ t2 ++ t3).Pairwise (fun a b => opPhase a ≤ opPhase b) := by
  have hb01 : ∀ a ∈ p0 ++ t1, opPhase a ≤ 1 := by
    intro a ha
    rcases List.mem_append.mp ha with h | h
    · rw [h0 a h]; omega
    · rw [h1 a h]
  have hb012 : ∀ a ∈ p0 ++ t1 ++ t2, opPhase a ≤ 2 := by
    intro a ha
    rcases List.mem_append.mp ha with h | h
    · exact le_trans (hb01 a h) (by omega)
    · rw [h2 a h]
  refine List.pairwise_append.mpr ⟨List.pairwise_append.mpr
    ⟨List.pairwise_append.mpr
      ⟨pairwise_opPhase_of_const p0 0 h0, pairwise_opPhase_of_const t1 1 h1, ?_⟩,
     pairwise_opPhase_of_const t2 2 h2, ?_⟩,
    pairwise_opPhase_of_const t3 3 h3, ?_⟩
  · intro a ha b hb
    rw [h0 a ha, h1 b hb]
    omega
  · intro a ha b hb
    rw [h2 b hb]
    exact le_trans (hb01 a ha) (by omega)
  · intro a ha b hb
    rw [h3 b hb]
    exact le_trans (hb012 a ha) (by omega)

/-- Whatever the library returns, the steps `delete_group_rest` records are
phase-ordered, provided the steps it inherits are all fetches/warnings. -/
theorem delete_group_rest_sorted (lib : LibApi) (gid : String)
    (edges : List EntityEdge) (pre : List GraphOp)
    (hpre : ∀ a ∈ pre, opPhase a = 0) :
    (delete_group_rest lib gid edges pre).1.Pairwise
      (fun a b => opPhase a ≤ opPhase b) := by
  have hpre1 : ∀ a ∈ pre ++ [GraphOp.fetchNodes gid], opPhase a = 0 := by
    intro a ha
    rcases List.mem_append.mp ha with h | h
    · exact hpre a h
    · simp at h
      subst h
      rfl
  have hpre2 : ∀ a ∈ pre ++ [GraphOp.fetchNodes gid, GraphOp.fetchEpisodes gid],
      opPhase a = 0 := by
    intro a ha
    rcases List.mem_append.mp ha with h | h
    · exact hpre a h
    · simp at h
      rcases h with rfl | rfl <;> rfl
  rcases hn : lib.node_get_by_group_ids [gid] with e | nodes
  · simpa [delete_group_rest, hn] using
      pairwise_opPhase_of_const _ 0 hpre1
  · rcases hp : lib.episode_get_by_group_ids [gid] with e | episodes
    · simpa [delete_group_rest, hn, hp] using
        pairwise_opPhase_of_const _ 0 hpre2
    · rcases ht1 : runDeleteLoop lib.edge_delete GraphOp.deleteEdge edges with ⟨t1, e1⟩
      have m1 : ∀ a ∈ t1, opPhase a = 1 := by
        intro a ha
        obtain ⟨x, rfl⟩ := runDeleteLoop_mem lib.edge_delete GraphOp.deleteEdge edges a
          (by rw [ht1]; exact ha)
        rfl
      cases e1 with
      | some err =>
          simpa [delete_group_rest, hn, hp, ht1] using
            pairwise_four_blocks _ t1 [] [] hpre2 m1 (by simp) (by simp)
      | none =>
          rcases ht2 : runDeleteLoop lib.node_delete GraphOp.deleteNode nodes with ⟨t2, e2⟩
          have m2 : ∀ a ∈ t2, opPhase a = 2 := by
            intro a ha
            obtain ⟨x, rfl⟩ := runDeleteLoop_mem lib.node_delete GraphOp.deleteNode nodes a
              (by rw [ht2]; exact ha)
            rfl
          cases e2 with
          | some err =>
              simpa [delete_group_rest, hn, hp, ht1, ht2] using
                pairwise_four_blocks _ t1 t2 [] hpre2 m1 m2 (by simp)
          | none =>
              rcases ht3 : runDeleteLoop lib.episode_delete GraphOp.deleteEpisode episodes
                with ⟨t3, e3⟩
              have m3 : ∀ a ∈ t3, opPhase a = 3 := by
                intro a ha
                obtain ⟨x, rfl⟩ := runDeleteLoop_mem lib.episode_delete
                  GraphOp.deleteEpisode episodes a (by rw [ht3]; exact ha)
                rfl
              simpa [delete_group_rest, hn, hp, ht1, ht2, ht3] using
                pairwise_four_blocks _ t1 t2 t3 hpre2 m1 m2 m3

/-- Claim C6: the steps of `delete_group` are phase-ordered — no node or
episode deletion ever precedes an edge deletion, and no episode deletion
precedes a node deletion; moreover, when all fetches succeed and no delete
fails, the trace is exactly the fetches, then every fetched edge's
deletion, then every fetched node's, then every fetched episode's. -/
theorem delete_group_mutation_order (lib : LibApi) (gid : String) :
    (delete_group lib gid).1.Pairwise (fun a b => opPhase a ≤ opPhase b) ∧
    (∀ (edges : List EntityEdge) (nodes : List EntityNode)
        (episodes : List EpisodicNode),
      lib.edge_get_by_group_ids [gid] = .ok edges →
      lib.node_get_by_group_ids [gid] = .ok nodes →
      lib.episode_get_by_group_ids [gid] = .ok episodes →
      (∀ e ∈ edges, lib.edge_delete e = .ok ()) →
      (∀ n ∈ nodes, lib.node_delete n = .ok ()) →
      (∀ p ∈ episodes, lib.episode_delete p = .ok ()) →
      delete_group lib gid =
        ([GraphOp.fetchEdges gid, GraphOp.fetchNodes gid, GraphOp.fetchEpisodes gid] ++
          edges.map GraphOp.deleteEdge ++ nodes.map GraphOp.deleteNode ++
          episodes.map GraphOp.deleteEpisode, none)) := by
  constructor
  · rcases he : lib.edge_get_by_group_ids [gid] with e | edges
    · cases e with
      | groupsEdgesNotFoundError m =>
          have h := delete_group_rest_sorted lib gid []
            [GraphOp.fetchEdges gid, GraphOp.warnNoEdges gid]
            (by intro a ha; simp at ha; rcases ha with rfl | rfl <;> rfl)
          simpa [delete_group, he] using h
      | edgeNotFoundError m => simp [delete_group, he]
      | nodeNotFoundError m => simp [delete_group, he]
      | otherError m => simp [delete_group, he]
    · have h := delete_group_rest_sorted lib gid edges [GraphOp.fetchEdges gid]
        (by intro a ha; simp at ha; subst ha; rfl)
      simpa [delete_group, he] using h
  · intro edges nodes episodes he hn hp hde hdn hdp
    have h1 := runDeleteLoop_all_ok lib.edge_delete GraphOp.deleteEdge edges hde
    have h2 := runDeleteLoop_all_ok lib.node_delete GraphOp.deleteNode nodes hdn
    have h3 := runDeleteLoop_all_ok lib.episode_delete GraphOp.deleteEpisode episodes hdp
    simp [delete_group, delete_group_rest, he, hn, hp, h1, h2, h3]

/-- Claim C6 witness: one edge, one node, one episode, everything
succeeding. -/
theorem delete_group_mutation_order_witness :
    (delete_group libAll "g").1.Pairwise (fun a b => opPhase a ≤ opPhase b) ∧
    delete_group libAll "g" =
      ([GraphOp.fetchEdges "g", GraphOp.fetchNodes "g", GraphOp.fetchEpisodes "g"] ++
        [edge1].map GraphOp.deleteEdge ++ [node1].map GraphOp.deleteNode ++
        [episode1].map GraphOp.deleteEpisode, none) := by
  have h := delete_group_mutation_order libAll "g"
  exact ⟨h.1, h.2 [edge1] [node1] [episode1] rfl rfl rfl
    (fun _ _ => rfl) (fun _ _ => rfl) (fun _ _ => rfl)⟩

/-- Claim C8: `delete_group` catches only the edge fetch's no-edges-found
error — when the node fetch (or, it succeeding, the episode fetch) raises
any library error, the call fails with exactly that library error, never
with an HTTP 404. -/
theorem delete_group_node_fetch_error_propagates (lib : LibApi) (gid : String)
    (e : LibErr)
    (hedge : (∃ edges, lib.edge_get_by_group_ids [gid] = .ok edges) ∨
      (∃ m, lib.edge_get_by_group_ids [gid] = .error (.groupsEdgesNotFoundError m))) :
    (lib.node_get_by_group_ids [gid] = .error e →
       (delete_group lib gid).2 = some (.libError e) ∧
       ∀ st dt, (delete_group lib gid).2 ≠ some (.httpException st dt)) ∧
    (∀ nodes, lib.node_get_by_group_ids [gid] = .ok nodes →
       lib.episode_get_by_group_ids [gid] = .error e →
       (delete_group lib gid).2 = some (.libError e) ∧
       ∀ st dt, (delete_group lib gid).2 ≠ some (.httpException st dt)) := by
  constructor
  · intro hn
    rcases hedge with ⟨edges, he⟩ | ⟨m, he⟩ <;>
      simp [delete_group, delete_group_rest, he, hn]
  · intro nodes hn hp
    rcases hedge with ⟨edges, he⟩ | ⟨m, he⟩ <;>
      simp [delete_group, delete_group_rest, he, hn, hp]

/-- Claim C8 witness: a failing node fetch propagates as the raw library
error. -/
theorem delete_group_node_fetch_error_propagates_witness :
    (delete_group libNodeFetchErr "g").2 =
      some (.libError (.nodeNotFoundError "group nodes not found")) :=
  ((delete_group_node_fetch_error_propagates libNodeFetchErr "g"
      (.nodeNotFoundError "group nodes not found") (Or.inl ⟨[], rfl⟩)).1 rfl).1

/-- `delete_group_rest` never fails with an HTTP exception: everything it
lets escape is a raw library error. -/
theorem delete_group_rest_no_http (lib : LibApi) (gid : String)
    (edges : List EntityEdge) (pre : List GraphOp) :
    ∀ st dt, (delete_group_rest lib gid edges pre).2 ≠ some (.httpException st dt) := by
  intro st dt
  rcases hn : lib.node_get_by_group_ids [gid] with e | nodes
  · simp [delete_group_rest, hn]
  · rcases hp : lib.episode_get_by_group_ids [gid] with e | episodes
    · simp [delete_group_rest, hn, hp]
    · rcases ht1 : runDeleteLoop lib.edge_delete GraphOp.deleteEdge edges with ⟨t1, _ | e1⟩
      · rcases ht2 : runDeleteLoop lib.node_delete GraphOp.deleteNode nodes with ⟨t2, _ | e2⟩
        · rcases ht3 : runDeleteLoop lib.episode_delete GraphOp.deleteEpisode episodes
            with ⟨t3, _ | e3⟩
          · simp [delete_group_rest, hn, hp, ht1, ht2, ht3]
          · simp [delete_group_rest, hn, hp, ht1, ht2, ht3]
        · simp [delete_group_rest, hn, hp, ht1, ht2]
      · simp [delete_group_rest, hn, hp, ht1]

/-- `delete_group` never fails with an HTTP exception at all: it performs
no not-found translation. -/
theorem delete_group_no_http (lib : LibApi) (gid : String) :
    ∀ st dt, (delete_group lib gid).2 ≠ some (.httpException st dt) := by
  intro st dt
  rcases he : lib.edge_get_by_group_ids [gid] with e | edges
  · cases e with
    | groupsEdgesNotFoundError m =>
        simp only [delete_group, he]
        exact delete_group_rest_no_http lib gid _ _ st dt
    | edgeNotFoundError m => simp [delete_group, he]
    | nodeNotFoundError m => simp [delete_group, he]
    | otherError m => simp [delete_group, he]
  · simp only [delete_group, he]
    exact delete_group_rest_no_http lib gid _ _ st dt

/-- `save_entity_node` never raises an HTTP exception: it has no error
handling of its own. -/
theorem save_entity_node_no_http (lib : LibApi) (name uuid group_id summary : String) :
    ∀ st dt, save_entity_node lib name uuid group_id summary ≠
      .error (.httpException st dt) := by
  intro st dt
  rcases hg : lib.generate_name_embedding
      { name := name, uuid := uuid, group_id := group_id, summary := summary,
        name_embedding := none } with e | embedded
  · simp [save_entity_node, hg]
  · rcases hs : lib.node_save embedded with e | v
    · simp [save_entity_node, hg, hs]
    · simp [save_entity_node, hg, hs]

/-- Claim C7 counterexample: `delete_group`'s edge fetch raises the
library's no-edges-found variant, yet the call produces no failure at all —
in particular no user-facing not-found failure carrying the message — so
not every delegate method maps every not-found variant its calls can
raise. -/
theorem delegate_not_found_mapping_counterexample :
    libNoEdges.edge_get_by_group_ids ["g"] =
      .error (.groupsEdgesNotFoundError "no edges found") ∧
    (delete_group libNoEdges "g").2 = none :=
  ⟨rfl, rfl⟩

/-- Claim C7 (amended): `get_entity_edge` and `delete_entity_edge` map
`EdgeNotFoundError`, and `delete_episodic_node` maps `NodeNotFoundError`,
to a 404 carrying the library's message; `delete_group`, by contrast,
treats the edge fetch's `GroupsEdgesNotFoundError` as non-fatal (continuing
with an empty edge set) and never produces a not-found failure, and
`save_entity_node` maps nothing, letting library errors propagate
unchanged. -/
theorem delegate_error_mapping (lib : LibApi)
    (uuid gid name nuuid ngid summary : String) :
    (∀ m, lib.edge_get_by_uuid uuid = .error (.edgeNotFoundError m) →
       get_entity_edge lib uuid = .error (.httpException 404 m) ∧
       delete_entity_edge lib uuid = .error (.httpException 404 m)) ∧
    (∀ m, lib.episode_get_by_uuid uuid = .error (.nodeNotFoundError m) →
       delete_episodic_node lib uuid = .error (.httpException 404 m)) ∧
    (∀ m, lib.edge_get_by_group_ids [gid] = .error (.groupsEdgesNotFoundError m) →
       delete_group lib gid =
         delete_group_rest lib gid [] [GraphOp.fetchEdges gid, GraphOp.warnNoEdges gid]) ∧
    (∀ st dt, (delete_group lib gid).2 ≠ some (.httpException st dt)) ∧
    (∀ st dt, save_entity_node lib name nuuid ngid summary ≠
       .error (.httpException st dt)) ∧
    (∀ err, lib.generate_name_embedding
        { name := name, uuid := nuuid, group_id := ngid, summary := summary,
          name_embedding := none } = .error err →
       save_entity_node lib name nuuid ngid summary = .error (.libError err)) := by
  refine ⟨?_, ?_, ?_, delete_group_no_http lib gid,
    save_entity_node_no_http lib name nuuid ngid summary, ?_⟩
  · intro m h
    exact ⟨by simp [get_entity_edge, h], by simp [delete_entity_edge, h]⟩
  · intro m h
    simp [delete_episodic_node, h]
  · intro m h
    simp [delete_group, h]
  · intro err h
    simp [save_entity_node, h]

/-- Claim C7 (amended) witness: one library exhibiting every case. -/
theorem delegate_error_mapping_witness :
    (get_entity_edge libCombo "u1" = .error (.httpException 404 "edge not found") ∧
     delete_entity_edge libCombo "u1" = .error (.httpException 404 "edge not found")) ∧
    delete_episodic_node libCombo "u1" = .error (.httpException 404 "node not found") ∧
    delete_group libCombo "g" =
      delete_group_rest libCombo "g" []
        [GraphOp.fetchEdges "g", GraphOp.warnNoEdges "g"] ∧
    save_entity_node libCombo "alice" "n1" "g" "" =
      .error (.libError (.otherError "llm unavailable")) := by
  have h := delegate_error_mapping libCombo "u1" "g" "alice" "n1" "g" ""
  exact ⟨h.1 "edge not found" rfl, h.2.1 "node not found" rfl,
    h.2.2.1 "no edges found" rfl, h.2.2.2.2.2 (.otherError "llm unavailable") rfl⟩
